import Mathlib

/-!
Shallow embedding of the UUCLV events automation scripts
(`onApprovalEdit`, `rebuildRecurringInstances_` and their helpers).
JavaScript strings are modelled by `String`, JS `Date` cell values by the
`JsDate` record of calendar fields, spreadsheet field writes and calendar
collaborator calls by explicit traces, and the two fallible calendar
collaborators by an oracle (`World`).
-/

namespace UUCLV

/-! ### String helpers (JS `toLowerCase`, `trim`, `indexOf`, `parseInt`) -/

def isWS (c : Char) : Bool := c == ' ' || c == '\t' || c == '\n' || c == '\r'

def trimChars (l : List Char) : List Char :=
  ((l.dropWhile isWS).reverse.dropWhile isWS).reverse

def jsTrim (s : String) : String := String.mk (trimChars s.data)

def jsToLower (s : String) : String := String.mk (s.data.map Char.toLower)

/-- `normalize_(value)`: `String(value).toLowerCase().trim()`. -/
def normalizeStr (s : String) : String := jsTrim (jsToLower s)

def isPrefixList : List Char → List Char → Bool
  | [], _ => true
  | _ :: _, [] => false
  | a :: as, b :: bs => a == b && isPrefixList as bs

def containsSub : List Char → List Char → Bool
  | [], needle => needle.isEmpty
  | c :: rest, needle => isPrefixList needle (c :: rest) || containsSub rest needle

/-- JS `t.indexOf(sub) !== -1`. -/
def containsTok (t sub : String) : Bool := containsSub t.data sub.data

def startsWithKey (key s : String) : Bool := isPrefixList key.data s.data

def digitsVal (l : List Char) : Int :=
  l.foldl (fun a c => a * 10 + ((c.toNat : Int) - ('0'.toNat : Int))) 0

/-- JS `parseInt(s, 10)`: skip leading whitespace, optional sign, longest
digit prefix; `NaN` (here `none`) when no digits follow. -/
def parseInt10 (s : String) : Option Int :=
  let cs := s.data.dropWhile isWS
  match cs with
  | '-' :: t =>
    let ds := t.takeWhile Char.isDigit
    if ds.isEmpty then none else some (-(digitsVal ds))
  | '+' :: t =>
    let ds := t.takeWhile Char.isDigit
    if ds.isEmpty then none else some (digitsVal ds)
  | _ =>
    let ds := cs.takeWhile Char.isDigit
    if ds.isEmpty then none else some (digitsVal ds)

/-- JS `String.prototype.split(',')` on the character list. -/
def splitComma : List Char → List (List Char)
  | [] => [[]]
  | c :: rest =>
    match splitComma rest with
    | [] => [[c]]
    | h :: t => if c == ',' then [] :: h :: t else (c :: h) :: t

/-- JS `String(raw).split(',')`. -/
def jsSplitCommas (s : String) : List String := (splitComma s.data).map String.mk

/-! ### `parseSkipMonths_` -/

/-- One step of the loop body of `parseSkipMonths_`: trim the token,
`parseInt`, keep it when it lies in `[1, 12]`, zero-index it. -/
def skipStep (acc : Finset ℕ) (part : String) : Finset ℕ :=
  match parseInt10 (jsTrim part) with
  | some n => if 1 ≤ n ∧ n ≤ 12 then insert (n - 1).toNat acc else acc
  | none => acc

/-- `parseSkipMonths_(skipMonthsRaw)`. -/
def parseSkipMonths (raw : String) : Finset ℕ :=
  if raw = "" then ∅ else (jsSplitCommas raw).foldl skipStep ∅

/-! ### Calendar arithmetic backing the JS `Date` operations -/

def isLeap (y : ℕ) : Bool := (y % 4 == 0 && y % 100 != 0) || y % 400 == 0

/-- Days in month `m` (0-indexed) of year `y` (proleptic Gregorian,
as JS `Date` computes in the local calendar). -/
def daysInMonth (y m : ℕ) : ℕ :=
  if m = 1 then (if isLeap y then 29 else 28)
  else if m = 3 ∨ m = 5 ∨ m = 8 ∨ m = 10 then 30
  else 31

def daysBeforeMonth (y : ℕ) : ℕ → ℕ
  | 0 => 0
  | m + 1 => daysBeforeMonth y m + daysInMonth y m

def daysBeforeYear (y : ℕ) : ℕ :=
  365 * y + (y + 3) / 4 - (y + 99) / 100 + (y + 399) / 400

/-- Day count of `y-m-d` (month 0-indexed, day 1-indexed) from 0000-01-01. -/
def absDay (y m d : ℕ) : ℕ := daysBeforeYear y + daysBeforeMonth y m + (d - 1)

/-- JS `getDay()`: 0 = Sunday … 6 = Saturday. 0000-01-01 was a Saturday. -/
def dayOfWeek (y m d : ℕ) : ℕ := (absDay y m d + 6) % 7

/-! ### `computeMonthlyOccurrenceDates_` and `computeFirstOccurrenceDateForYear_` -/

/-- The `while (d.getMonth() === month0)` loop collecting `d, d+7, …` while
the day stays within the month (`≤ D`); fuel `D + 1` always suffices. -/
def collectWeeklyAux : ℕ → ℕ → ℕ → List ℕ
  | 0, _, _ => []
  | fuel + 1, D, d => if d ≤ D then d :: collectWeeklyAux fuel D (d + 7) else []

def collectWeekly (D d : ℕ) : List ℕ := collectWeeklyAux (D + 1) D d

/-- `computeMonthlyOccurrenceDates_(year, month0, jsWeekdayIndex, bysetposOrNull)`,
returning the day-of-month values of the produced dates. -/
def computeMonthlyOccurrenceDates (y m0 wd : ℕ) (pos : Option ℕ) : List ℕ :=
  let dowFirst := dayOfWeek y m0 1
  let delta := (wd + 7 - dowFirst) % 7
  match pos with
  | none => collectWeekly (daysInMonth y m0) (1 + delta)
  | some nth =>
    let day := 1 + delta + (nth - 1) * 7
    if day ≤ daysInMonth y m0 then [day] else []

def firstOccAux (y wd : ℕ) (pos : Option ℕ) : ℕ → ℕ → Option (ℕ × ℕ)
  | _, 0 => none
  | m, fuel + 1 =>
    match computeMonthlyOccurrenceDates y m wd pos with
    | [] => firstOccAux y wd pos (m + 1) fuel
    | d :: _ => some (m, d)

/-- `computeFirstOccurrenceDateForYear_(year, jsWeekdayIndex, bysetposOrNull)`,
returning `(month0, dayOfMonth)` of the first occurrence. -/
def computeFirstOccurrenceDateForYear (y wd : ℕ) (pos : Option ℕ) : Option (ℕ × ℕ) :=
  firstOccAux y wd pos 0 12

/-! ### Vocabulary maps and padding -/

/-- `dayOfWeekToRruleByday_`. -/
def dayOfWeekToRruleByday (raw : String) : Option String :=
  let text := jsTrim raw
  if text = "Sunday" then some "SU"
  else if text = "Monday" then some "MO"
  else if text = "Tuesday" then some "TU"
  else if text = "Wednesday" then some "WE"
  else if text = "Thursday" then some "TH"
  else if text = "Friday" then some "FR"
  else if text = "Saturday" then some "SA"
  else none

/-- `dayOfWeekToJsIndex_`. -/
def dayOfWeekToJsIndex (raw : String) : Option ℕ :=
  let text := jsTrim raw
  if text = "Sunday" then some 0
  else if text = "Monday" then some 1
  else if text = "Tuesday" then some 2
  else if text = "Wednesday" then some 3
  else if text = "Thursday" then some 4
  else if text = "Friday" then some 5
  else if text = "Saturday" then some 6
  else none

/-- `repeatPatternToBysetpos_`: `Every` maps to `null`, and so does any
label missing from the map (`hasOwnProperty` miss). -/
def repeatPatternToBysetpos (raw : String) : Option ℕ :=
  let text := jsTrim raw
  if text = "Every" then none
  else if text = "First" then some 1
  else if text = "Second" then some 2
  else if text = "Third" then some 3
  else if text = "Fourth" then some 4
  else none

/-- `getPaddingMinutes_`. -/
def getPaddingMinutes (raw : String) : ℕ :=
  let text := normalizeStr raw
  if text = "" ∨ text = "none" then 0
  else if containsTok text "30" then 30
  else if containsTok text "1 hour" ∨ text = "1 hr" ∨ text = "1hr" then 60
  else if containsTok text "2 hour" ∨ text = "2 hr" ∨ text = "2hr" then 120
  else 0

/-! ### `getWebsiteCalendarIdForTargetAudience_` -/

structure CalendarIds where
  memberId : Option String
  publicId : Option String
  buildingId : Option String
deriving DecidableEq

/-- `getWebsiteCalendarIdForTargetAudience_(targetAudienceRaw, calendarIds)`. -/
def getWebsiteCalendarIdForTargetAudience (raw : String) (ids : CalendarIds) : Option String :=
  let t := normalizeStr raw
  if t = "" then none
  else if containsTok t "private" then none
  else if containsTok t "members" then ids.memberId
  else if containsTok t "general public" then ids.publicId
  else if containsTok t "public" then ids.publicId
  else none

/-! ### RRULE serialization -/

/-- Minimum-four-digit decimal year, as `Utilities.formatDate`'s `yyyy`. -/
def pad4 (y : ℕ) : String :=
  let s := toString y
  if s.length < 4 then String.mk (List.replicate (4 - s.length) '0') ++ s else s

/-- `Utilities.formatDate(new Date(Date.UTC(year, 11, 31, 23, 59, 59)), 'UTC',
"yyyyMMdd'T'HHmmss'Z'")`. -/
def untilUtcOfYear (y : ℕ) : String := pad4 y ++ "1231T235959Z"

/-- The `rruleParts` array: built as
`['FREQ=MONTHLY', 'BYDAY=' + byday, 'WKST=SU', 'UNTIL=' + untilUtc]` and,
when `bysetpos !== null`, `splice(2, 0, 'BYSETPOS=' + bysetpos)`. -/
def buildRruleParts (byday : String) (bysetpos : Option ℕ) (y : ℕ) : List String :=
  let parts := ["FREQ=MONTHLY", "BYDAY=" ++ byday, "WKST=SU", "UNTIL=" ++ untilUtcOfYear y]
  match bysetpos with
  | some n => parts.take 2 ++ ["BYSETPOS=" ++ toString n] ++ parts.drop 2
  | none => parts

/-- `rruleParts.join(';')`. -/
def buildRrule (byday : String) (bysetpos : Option ℕ) (y : ℕ) : String :=
  String.intercalate ";" (buildRruleParts byday bysetpos y)

/-! ### JS `Date` cell values -/

/-- A JS `Date` as the scripts read it: local calendar fields
(`getFullYear`/`getMonth`/`getDate`/`getHours`/`getMinutes`/`getSeconds`). -/
structure JsDate where
  year : ℕ
  month : ℕ
  day : ℕ
  hours : ℕ
  minutes : ℕ
  seconds : ℕ
deriving DecidableEq

/-- The JS `Date` timestamp (seconds since 0000-01-01 in the script's
time zone); `setMinutes(getMinutes() ± p)` shifts it by `p * 60`. -/
def toEpochSeconds (d : JsDate) : Int :=
  ((absDay d.year d.month d.day : Int)) * 86400
    + (d.hours : Int) * 3600 + (d.minutes : Int) * 60 + (d.seconds : Int)

/-- `combineDateAndTime(date, time)`: null unless both are `Date`s, else the
date with the time's H:M:S. -/
def combineDateAndTime : Option JsDate → Option JsDate → Option JsDate
  | some date, some time =>
    some { date with hours := time.hours, minutes := time.minutes, seconds := time.seconds }
  | _, _ => none

/-- `combineDateWithTime_(date, time)` (verbatim duplicate helper in the source). -/
def combineDateWithTime : Option JsDate → Option JsDate → Option JsDate
  | some date, some time =>
    some { date with hours := time.hours, minutes := time.minutes, seconds := time.seconds }
  | _, _ => none

/-! ### Engine state: rows, collaborator oracle, traces -/

/-- The `Form Responses 1` row values used by `onApprovalEdit` (one-shot events). -/
structure Fr1Row where
  emailAddress : String
  eventName : String
  eventDescription : String
  dateVal : Option JsDate
  startTimeVal : Option JsDate
  endTimeVal : Option JsDate
  buildingParts : String
  targetAudience : String
  advertiseWhere : String
  setupTeardown : String
  keyholderAv : String
  needsGraphic : String
  graphicUpload : String
  existingBuildingEventId : String
  existingWebsiteEventId : String
deriving DecidableEq

/-- The `Form Responses 2` row values (recurring events). -/
structure Fr2Row where
  approval : String
  approver : String
  timestamp : String
  emailAddress : String
  eventName : String
  eventDescription : String
  repeatPattern : String
  dayOfWeek : String
  startTimeVal : Option JsDate
  endTimeVal : Option JsDate
  targetAudience : String
  advertiseWhere : String
  buildingParts : String
  setupTeardown : String
  keyholderAv : String
  needsGraphic : String
  graphicUpload : String
  existingBuildingSeriesId : String
  existingWebsiteSeriesId : String
  skipMonths : String
deriving DecidableEq

structure Config where
  calendarIds : CalendarIds
  recurringYear : ℕ
deriving DecidableEq

/-- Which call site (destination slot) issued a collaborator call. -/
inductive Slot
  | fr1Building
  | fr1Website
  | fr2Building
  | fr2Website
deriving DecidableEq

/-- One calendar-collaborator call as issued by the engine. -/
structure Call where
  slot : Slot
  calId : String
  title : String
  startSec : Int
  endSec : Int
  rrule : Option String
  descr : String
  loc : String
deriving DecidableEq

/-- A single-field spreadsheet write performed on the triggering row. -/
inductive FieldWrite
  | approver (v : String)
  | buildingEventId (v : String)
  | websiteEventId (v : String)
  | buildingSeriesId (v : String)
  | websiteSeriesId (v : String)
deriving DecidableEq

instance {ε α : Type} [DecidableEq ε] [DecidableEq α] : DecidableEq (Except ε α) := fun x y =>
  match x, y with
  | Except.ok a, Except.ok b =>
    if h : a = b then isTrue (by rw [h]) else isFalse (by intro hc; cases hc; exact h rfl)
  | Except.error a, Except.error b =>
    if h : a = b then isTrue (by rw [h]) else isFalse (by intro hc; cases hc; exact h rfl)
  | Except.ok _, Except.error _ => isFalse (by intro hc; cases hc)
  | Except.error _, Except.ok _ => isFalse (by intro hc; cases hc)

/-- Oracle for the external collaborators: whether `CalendarApp.getCalendarById`
finds the calendar, and what each creating call returns or throws. -/
structure World where
  buildingCalFound : Bool
  websiteCalFound : Bool
  fr1BuildingCreate : Except String String
  fr1WebsiteCreate : Except String String
  fr2BuildingCreate : Except String (Option String)
  fr2WebsiteCreate : Except String (Option String)
deriving DecidableEq

/-- Observable effects of one invocation of the `onEdit` trigger handler. -/
structure RunResult where
  calls : List Call := []
  writes : List FieldWrite := []
  notes : List String := []
  rebuilds : ℕ := 0
  uncaught : Option String := none
deriving DecidableEq

/-- Observable effects of one destination-slot section of the handler. -/
structure SlotOut where
  calls : List Call := []
  writes : List FieldWrite := []
  notes : List String := []
  uncaught : Option String := none
deriving DecidableEq

/-! ### Description strings pushed onto the collaborator calls -/

def joinParts (ps : List String) : String := String.intercalate "\n\n" ps

def optPart (v : String) (text : String) : List String := if v = "" then [] else [text]

/-- The `buildingDescriptionParts` assembly for one-shot events. -/
def fr1BuildingDescription (r : Fr1Row) (approverEmail : String) : String :=
  joinParts
    (optPart r.eventDescription ("Event Description:\n" ++ r.eventDescription)
      ++ optPart r.emailAddress ("Contact email: " ++ r.emailAddress)
      ++ optPart r.targetAudience ("Target audience: " ++ r.targetAudience)
      ++ optPart r.setupTeardown ("Setup/teardown padding: " ++ r.setupTeardown)
      ++ optPart r.keyholderAv ("Key holder / AV support: " ++ r.keyholderAv)
      ++ optPart r.needsGraphic ("Needs graphic: " ++ r.needsGraphic)
      ++ optPart r.graphicUpload ("Graphic upload: " ++ r.graphicUpload)
      ++ optPart r.advertiseWhere ("Advertise where: " ++ r.advertiseWhere)
      ++ optPart approverEmail ("Approved by: " ++ approverEmail))

/-- The `websiteDescriptionParts` assembly for one-shot events. -/
def fr1WebsiteDescription (r : Fr1Row) (approverEmail : String) : String :=
  joinParts
    (optPart r.eventDescription ("Description:\n" ++ r.eventDescription)
      ++ optPart r.emailAddress ("Contact email: " ++ r.emailAddress)
      ++ optPart r.targetAudience ("Target audience: " ++ r.targetAudience)
      ++ optPart approverEmail ("Approved by: " ++ approverEmail))

def repeatsPart (r : Fr2Row) : List String :=
  if r.repeatPattern = "" ∧ r.dayOfWeek = "" then []
  else ["Repeats: " ++ r.repeatPattern ++ " " ++ r.dayOfWeek]

/-- The `buildingDescriptionParts` assembly for recurring events. -/
def fr2BuildingDescription (r : Fr2Row) (approverEmail : String) : String :=
  joinParts
    (optPart r.eventDescription ("Event Description:\n" ++ r.eventDescription)
      ++ optPart r.emailAddress ("Contact email: " ++ r.emailAddress)
      ++ optPart r.targetAudience ("Target audience: " ++ r.targetAudience)
      ++ repeatsPart r
      ++ optPart r.setupTeardown ("Setup/teardown padding: " ++ r.setupTeardown)
      ++ optPart r.keyholderAv ("Key holder / AV support: " ++ r.keyholderAv)
      ++ optPart r.needsGraphic ("Needs graphic: " ++ r.needsGraphic)
      ++ optPart r.graphicUpload ("Graphic upload: " ++ r.graphicUpload)
      ++ optPart r.advertiseWhere ("Advertise where: " ++ r.advertiseWhere)
      ++ optPart approverEmail ("Approved by: " ++ approverEmail))

/-- The `websiteDescriptionParts` assembly for recurring events. -/
def fr2WebsiteDescription (r : Fr2Row) (approverEmail : String) : String :=
  joinParts
    (optPart r.eventDescription ("Description:\n" ++ r.eventDescription)
      ++ optPart r.emailAddress ("Contact email: " ++ r.emailAddress)
      ++ optPart r.targetAudience ("Target audience: " ++ r.targetAudience)
      ++ repeatsPart r
      ++ optPart approverEmail ("Approved by: " ++ approverEmail))

/-! ### Notes the engine appends to the Approval cell -/

def buildingSeriesFailNote (msg : String) : String :=
  "Could not create Building recurring event series. Ensure Advanced Calendar service is enabled.\n\n" ++ msg

def websiteSeriesFailNote (msg : String) : String :=
  "Could not create Website recurring event series. Ensure Advanced Calendar service is enabled.\n\n" ++ msg

def routeFailNote (aud : String) : String :=
  "Repeating website series not created: target audience \"" ++ aud
    ++ "\" did not map to Member/Public, or Config Member/Public Calendar ID is missing."

def alreadySetNote : String :=
  "Repeating website series not created because Website Calendar Recurring Event ID (S) is already set."

/-! ### The four destination-slot sections of `onApprovalEdit` -/

/-- One-shot building slot: guarded by space request, empty identifier and a
configured calendar; padded times; `createEvent` is NOT wrapped in try/catch,
so a thrown error escapes (`uncaught`). -/
def fr1BuildingSlot (w : World) (buildingCalId : Option String) (approverEmail : String)
    (r : Fr1Row) (baseStart baseEnd : JsDate) : SlotOut :=
  match buildingCalId with
  | some calId =>
    if normalizeStr r.buildingParts = "" ∨ r.existingBuildingEventId ≠ "" then {} else
    let p := getPaddingMinutes r.setupTeardown
    let s := toEpochSeconds baseStart - (p : Int) * 60
    let e := toEpochSeconds baseEnd + (p : Int) * 60
    if w.buildingCalFound then
      let call : Call :=
        ⟨Slot.fr1Building, calId, r.eventName, s, e, none,
          fr1BuildingDescription r approverEmail, r.buildingParts⟩
      match w.fr1BuildingCreate with
      | Except.ok id => { calls := [call], writes := [FieldWrite.buildingEventId id] }
      | Except.error msg => { calls := [call], uncaught := some msg }
    else {}
  | none => {}

/-- One-shot website slot: un-padded times; also NOT wrapped in try/catch. -/
def fr1WebsiteSlot (w : World) (websiteCalId : Option String) (approverEmail : String)
    (r : Fr1Row) (baseStart baseEnd : JsDate) : SlotOut :=
  match websiteCalId with
  | some calId =>
    if r.existingWebsiteEventId ≠ "" then {} else
    if w.websiteCalFound then
      let call : Call :=
        ⟨Slot.fr1Website, calId, r.eventName, toEpochSeconds baseStart, toEpochSeconds baseEnd,
          none, fr1WebsiteDescription r approverEmail, r.buildingParts⟩
      match w.fr1WebsiteCreate with
      | Except.ok id => { calls := [call], writes := [FieldWrite.websiteEventId id] }
      | Except.error msg => { calls := [call], uncaught := some msg }
    else {}
  | none => {}

/-- Recurring building slot: the `createRecurringEventSeriesAdvanced_` call is
wrapped in try/catch; a failure becomes a note, never an exception. -/
def fr2BuildingSlot (createRes : Except String (Option String)) (buildingCalId : Option String)
    (approverEmail : String) (r : Fr2Row) (rrule : String) (bs be : JsDate) : SlotOut :=
  match buildingCalId with
  | some calId =>
    if normalizeStr r.buildingParts = "" ∨ r.existingBuildingSeriesId ≠ "" then {} else
    let p := getPaddingMinutes r.setupTeardown
    let s := toEpochSeconds bs - (p : Int) * 60
    let e := toEpochSeconds be + (p : Int) * 60
    let call : Call :=
      ⟨Slot.fr2Building, calId, r.eventName, s, e, some rrule,
        fr2BuildingDescription r approverEmail, r.buildingParts⟩
    match createRes with
    | Except.ok (some id) => { calls := [call], writes := [FieldWrite.buildingSeriesId id] }
    | Except.ok none => { calls := [call] }
    | Except.error msg => { calls := [call], notes := [buildingSeriesFailNote msg] }
  | none => {}

/-- Recurring website slot, including the breadcrumb notes for an unroutable
audience or an already-set series identifier; call wrapped in try/catch. -/
def fr2WebsiteSlot (createRes : Except String (Option String)) (websiteCalId : Option String)
    (approverEmail : String) (r : Fr2Row) (rrule : String) (bs be : JsDate) : SlotOut :=
  match websiteCalId with
  | none =>
    let t := normalizeStr r.targetAudience
    if t ≠ "" ∧ containsTok t "private" = false then { notes := [routeFailNote r.targetAudience] }
    else {}
  | some calId =>
    if r.existingWebsiteSeriesId ≠ "" then { notes := [alreadySetNote] } else
    let call : Call :=
      ⟨Slot.fr2Website, calId, r.eventName, toEpochSeconds bs, toEpochSeconds be, some rrule,
        fr2WebsiteDescription r approverEmail, r.buildingParts⟩
    match createRes with
    | Except.ok (some id) => { calls := [call], writes := [FieldWrite.websiteSeriesId id] }
    | Except.ok none => { calls := [call] }
    | Except.error msg => { calls := [call], notes := [websiteSeriesFailNote msg] }

/-! ### The per-sheet bodies and the dispatcher -/

/-- The pure data checks of the `Form Responses 1` section: both time
combinations must be `Date`s and the event name non-empty. -/
def fr1Prelude (r : Fr1Row) : Option (JsDate × JsDate) :=
  match combineDateAndTime r.dateVal r.startTimeVal, combineDateAndTime r.dateVal r.endTimeVal with
  | some bs, some be => if r.eventName = "" then none else some (bs, be)
  | _, _ => none

/-- The `Form Responses 1` section of `onApprovalEdit` (after the shared
approver write): edge check, data checks, then the two slots in order; an
uncaught throw in the building slot prevents the website slot. -/
def runFr1Body (w : World) (cfg : Config) (newValue oldValue approverEmail : String)
    (r : Fr1Row) : RunResult :=
  if newValue ≠ "Approved" ∨ oldValue = "Approved" then {} else
  match fr1Prelude r with
  | none => {}
  | some (bs, be) =>
    match (fr1BuildingSlot w cfg.calendarIds.buildingId approverEmail r bs be).uncaught with
    | some msg =>
      { calls := (fr1BuildingSlot w cfg.calendarIds.buildingId approverEmail r bs be).calls,
        writes := (fr1BuildingSlot w cfg.calendarIds.buildingId approverEmail r bs be).writes,
        notes := (fr1BuildingSlot w cfg.calendarIds.buildingId approverEmail r bs be).notes,
        uncaught := some msg }
    | none =>
      { calls := (fr1BuildingSlot w cfg.calendarIds.buildingId approverEmail r bs be).calls
          ++ (fr1WebsiteSlot w
                (getWebsiteCalendarIdForTargetAudience r.targetAudience cfg.calendarIds)
                approverEmail r bs be).calls,
        writes := (fr1BuildingSlot w cfg.calendarIds.buildingId approverEmail r bs be).writes
          ++ (fr1WebsiteSlot w
                (getWebsiteCalendarIdForTargetAudience r.targetAudience cfg.calendarIds)
                approverEmail r bs be).writes,
        notes := (fr1BuildingSlot w cfg.calendarIds.buildingId approverEmail r bs be).notes
          ++ (fr1WebsiteSlot w
                (getWebsiteCalendarIdForTargetAudience r.targetAudience cfg.calendarIds)
                approverEmail r bs be).notes,
        uncaught := (fr1WebsiteSlot w
          (getWebsiteCalendarIdForTargetAudience r.targetAudience cfg.calendarIds)
          approverEmail r bs be).uncaught }

/-- The pure data and vocabulary checks of the `Form Responses 2` section,
up to the RRULE string and first-occurrence start/end instants. -/
def fr2Prelude (cfg : Config) (r : Fr2Row) : Option (String × JsDate × JsDate) :=
  if r.eventName = "" then none else
  match r.startTimeVal, r.endTimeVal with
  | some st, some et =>
    let year := cfg.recurringYear
    match dayOfWeekToJsIndex r.dayOfWeek, dayOfWeekToRruleByday r.dayOfWeek with
    | some wdIdx, some byday =>
      let pos := repeatPatternToBysetpos r.repeatPattern
      match computeFirstOccurrenceDateForYear year wdIdx pos with
      | none => none
      | some (m, d) =>
        let firstDate : JsDate := ⟨year, m, d, 0, 0, 0⟩
        match combineDateWithTime (some firstDate) (some st),
              combineDateWithTime (some firstDate) (some et) with
        | some bs, some be => some (buildRrule byday pos year, bs, be)
        | _, _ => none
    | _, _ => none
  | _, _ => none

/-- The `Form Responses 2` section of `onApprovalEdit`: un-approval rebuild,
edge check, data and vocabulary checks, RRULE assembly, the two series slots
(each with its own try/catch) and the final instance rebuild. -/
def runFr2Body (w : World) (cfg : Config) (newValue oldValue approverEmail : String)
    (r : Fr2Row) : RunResult :=
  if oldValue = "Approved" ∧ newValue ≠ "Approved" then { rebuilds := 1 } else
  if newValue ≠ "Approved" ∨ oldValue = "Approved" then {} else
  match fr2Prelude cfg r with
  | none => {}
  | some (rrule, bs, be) =>
    { calls := (fr2BuildingSlot w.fr2BuildingCreate cfg.calendarIds.buildingId
          approverEmail r rrule bs be).calls
        ++ (fr2WebsiteSlot w.fr2WebsiteCreate
              (getWebsiteCalendarIdForTargetAudience r.targetAudience cfg.calendarIds)
              approverEmail r rrule bs be).calls,
      writes := (fr2BuildingSlot w.fr2BuildingCreate cfg.calendarIds.buildingId
          approverEmail r rrule bs be).writes
        ++ (fr2WebsiteSlot w.fr2WebsiteCreate
              (getWebsiteCalendarIdForTargetAudience r.targetAudience cfg.calendarIds)
              approverEmail r rrule bs be).writes,
      notes := (fr2BuildingSlot w.fr2BuildingCreate cfg.calendarIds.buildingId
          approverEmail r rrule bs be).notes
        ++ (fr2WebsiteSlot w.fr2WebsiteCreate
              (getWebsiteCalendarIdForTargetAudience r.targetAudience cfg.calendarIds)
              approverEmail r rrule bs be).notes,
      rebuilds := 1, uncaught := none }

/-- The sheet a cell edit landed on, together with that row's values. -/
inductive SheetRow
  | fr1 (r : Fr1Row)
  | fr2 (r : Fr2Row)
  | other
deriving DecidableEq

/-- The `onEdit` trigger event: row/column of the edited cell, old/new cell
value (JS `e.oldValue || ''` / `e.value || ''`), the resolved editor email,
and the edited sheet with its row values. -/
structure EditEvent where
  rowIndex : ℕ
  col : ℕ
  newValue : String
  oldValue : String
  approverEmail : String
  sheetRow : SheetRow
deriving DecidableEq

/-- Prepend the shared Approver-column write (performed for every Approval
column edit when the editor email is non-empty). -/
def withApprover (em : String) (res : RunResult) : RunResult :=
  { res with writes := (if em = "" then [] else [FieldWrite.approver em]) ++ res.writes }

/-- `onApprovalEdit(e)`: header-row guard, Skip-Months rebuild branch,
Approval-column guard, approver write, then the per-sheet body. -/
def onApprovalEdit (w : World) (cfg : Config) (e : EditEvent) : RunResult :=
  if e.rowIndex < 2 then {} else
  match e.sheetRow with
  | SheetRow.fr2 r =>
    if e.col = 20 then { rebuilds := 1 } else
    if e.col ≠ 1 then {} else
    withApprover e.approverEmail (runFr2Body w cfg e.newValue e.oldValue e.approverEmail r)
  | SheetRow.fr1 r =>
    if e.col ≠ 1 then {} else
    withApprover e.approverEmail (runFr1Body w cfg e.newValue e.oldValue e.approverEmail r)
  | SheetRow.other =>
    if e.col ≠ 1 then {} else
    withApprover e.approverEmail {}

/-! ### `rebuildRecurringInstances_` (the InstanceExpander) -/

/-- One output row of the `Recurring Instances` sheet. -/
structure InstanceRow where
  approver : String
  eventName : String
  description : String
  startDT : JsDate
  endDT : JsDate
  targetAudience : String
  buildingSpaces : String
  advertiseWhere : String
  setupTeardown : String
  needsGraphic : String
  graphic : String
  timestamp : String
  buildingSeriesId : String
  websiteSeriesId : String
deriving DecidableEq

def mkInstanceRow (r : Fr2Row) (s e : JsDate) : InstanceRow :=
  ⟨r.approver, r.eventName, r.eventDescription, s, e, r.targetAudience, r.buildingParts,
    r.advertiseWhere, r.setupTeardown, r.needsGraphic, r.graphicUpload, r.timestamp,
    r.existingBuildingSeriesId, r.existingWebsiteSeriesId⟩

/-- Expansion of one `Form Responses 2` row: only Approved rows, resolvable
weekday and `Date` times; months 0–11 minus the skip set; each occurrence
date combined with the start/end times of day. -/
def expandFr2Row (year : ℕ) (r : Fr2Row) : List InstanceRow :=
  if r.approval ≠ "Approved" then [] else
  let skip := parseSkipMonths r.skipMonths
  let pos := repeatPatternToBysetpos r.repeatPattern
  match dayOfWeekToJsIndex r.dayOfWeek with
  | none => []
  | some wd =>
    match r.startTimeVal, r.endTimeVal with
    | some st, some et =>
      ((List.range 12).map (fun m =>
        if m ∈ skip then [] else
        ((computeMonthlyOccurrenceDates year m wd pos).map (fun d =>
          match combineDateWithTime (some ⟨year, m, d, 0, 0, 0⟩) (some st),
                combineDateWithTime (some ⟨year, m, d, 0, 0, 0⟩) (some et) with
          | some s, some e => [mkInstanceRow r s e]
          | _, _ => [])).flatten)).flatten
    | _, _ => []

/-- `rebuildRecurringInstances_`: full rebuild over all data rows. -/
def rebuildRecurringInstances (year : ℕ) (rows : List Fr2Row) : List InstanceRow :=
  (rows.map (expandFr2Row year)).flatten

/-! ### Trace projections used by the statements -/

def callsOfSlot (res : RunResult) (s : Slot) : List Call :=
  res.calls.filter (fun c => decide (c.slot = s))

def buildingEventWrites (res : RunResult) : List FieldWrite :=
  res.writes.filter (fun fw => match fw with | FieldWrite.buildingEventId _ => true | _ => false)

def websiteEventWrites (res : RunResult) : List FieldWrite :=
  res.writes.filter (fun fw => match fw with | FieldWrite.websiteEventId _ => true | _ => false)

def buildingSeriesWrites (res : RunResult) : List FieldWrite :=
  res.writes.filter (fun fw => match fw with | FieldWrite.buildingSeriesId _ => true | _ => false)

def websiteSeriesWrites (res : RunResult) : List FieldWrite :=
  res.writes.filter (fun fw => match fw with | FieldWrite.websiteSeriesId _ => true | _ => false)

/-! ### Concrete inputs used by the example theorems -/

def cfgAll : Config :=
  { calendarIds :=
      { memberId := some "member-cal", publicId := some "public-cal",
        buildingId := some "building-cal" },
    recurringYear := 2026 }

def worldOk : World :=
  { buildingCalFound := true, websiteCalFound := true,
    fr1BuildingCreate := Except.ok "b-evt-1", fr1WebsiteCreate := Except.ok "w-evt-1",
    fr2BuildingCreate := Except.ok (some "b-series-1"),
    fr2WebsiteCreate := Except.ok (some "w-series-1") }

def worldFr1BuildingFails : World := { worldOk with fr1BuildingCreate := Except.error "boom" }

/-- The recurring record of the end-to-end scenario: Second Tuesday,
18:00–20:00, skip months "3,7". -/
def rowGame : Fr2Row :=
  { approval := "Approved", approver := "appr@uuclv.org", timestamp := "t",
    emailAddress := "who@uuclv.org", eventName := "Game Night", eventDescription := "desc",
    repeatPattern := "Second", dayOfWeek := "Tuesday",
    startTimeVal := some ⟨1899, 11, 30, 18, 0, 0⟩, endTimeVal := some ⟨1899, 11, 30, 20, 0, 0⟩,
    targetAudience := "General Public", advertiseWhere := "", buildingParts := "Hall",
    setupTeardown := "None", keyholderAv := "", needsGraphic := "", graphicUpload := "",
    existingBuildingSeriesId := "", existingWebsiteSeriesId := "", skipMonths := "3,7" }

/-- A complete one-shot record with both destination slots eligible. -/
def rowOne : Fr1Row :=
  { emailAddress := "who@uuclv.org", eventName := "Concert", eventDescription := "d",
    dateVal := some ⟨2026, 4, 20, 0, 0, 0⟩,
    startTimeVal := some ⟨1899, 11, 30, 18, 0, 0⟩, endTimeVal := some ⟨1899, 11, 30, 20, 0, 0⟩,
    buildingParts := "Sanctuary", targetAudience := "General Public", advertiseWhere := "",
    setupTeardown := "None", keyholderAv := "", needsGraphic := "", graphicUpload := "",
    existingBuildingEventId := "", existingWebsiteEventId := "" }

/-- The same one-shot record with both identifier fields already populated. -/
def rowOneKept : Fr1Row :=
  { rowOne with existingBuildingEventId := "KEEP-B", existingWebsiteEventId := "KEEP-W" }

/-- The recurring record with both series identifier fields already populated. -/
def rowGameKept : Fr2Row :=
  { rowGame with existingBuildingSeriesId := "KEEP-BS", existingWebsiteSeriesId := "KEEP-WS" }

def rowBanana : Fr2Row := { rowGame with repeatPattern := "Banana" }

def rowNoWd : Fr2Row := { rowGame with dayOfWeek := "Someday" }

def eGameApprove : EditEvent :=
  ⟨2, 1, "Approved", "Pending", "a@b.c", SheetRow.fr2 rowGame⟩

def eGameReapprove : EditEvent :=
  ⟨3, 1, "Approved", "Approved", "approver@example.com", SheetRow.fr2 rowGame⟩

def eOneApprove : EditEvent :=
  ⟨2, 1, "Approved", "Pending", "a@b.c", SheetRow.fr1 rowOne⟩

def eOneKept : EditEvent :=
  ⟨2, 1, "Approved", "Pending", "a@b.c", SheetRow.fr1 rowOneKept⟩

def eGameKept : EditEvent :=
  ⟨2, 1, "Approved", "Pending", "a@b.c", SheetRow.fr2 rowGameKept⟩

def eBananaApprove : EditEvent :=
  ⟨2, 1, "Approved", "Pending", "a@b.c", SheetRow.fr2 rowBanana⟩

def eNoWdApprove : EditEvent :=
  ⟨2, 1, "Approved", "Pending", "a@b.c", SheetRow.fr2 rowNoWd⟩

/-! ## Theorems -/

/-! ### C6: end-to-end instance expansion -/

/-- C6 (confirmed): for the approved recurring record with ordinal `Second`,
weekday `Tuesday`, skip months "3,7", times 18:00–20:00, year 2026, the
expansion yields exactly 10 rows, one per non-skipped month in ascending
month order, each the second Tuesday of its month at 18:00–20:00. -/
theorem C6_expansion :
    (rebuildRecurringInstances 2026 [rowGame]).length = 10 ∧
    (rebuildRecurringInstances 2026 [rowGame]).map
        (fun r => (r.startDT.year, r.startDT.month, r.startDT.day)) =
      [(2026, 0, 13), (2026, 1, 10), (2026, 3, 14), (2026, 4, 12), (2026, 5, 9), (2026, 7, 11),
       (2026, 8, 8), (2026, 9, 13), (2026, 10, 10), (2026, 11, 8)] ∧
    (rebuildRecurringInstances 2026 [rowGame]).map
        (fun r => dayOfWeek r.startDT.year r.startDT.month r.startDT.day) =
      List.replicate 10 2 ∧
    (rebuildRecurringInstances 2026 [rowGame]).map
        (fun r => (r.startDT.hours, r.startDT.minutes, r.endDT.hours, r.endDT.minutes)) =
      List.replicate 10 (18, 0, 20, 0) := by
  refine ⟨by decide, by decide, by decide, by decide⟩

/-! ### C8: the skip-months parser -/

theorem mem_skipStep (acc : Finset ℕ) (p : String) (k : ℕ) :
    k ∈ skipStep acc p ↔ k ∈ acc ∨
      ∃ n : Int, parseInt10 (jsTrim p) = some n ∧ 1 ≤ n ∧ n ≤ 12 ∧ (n - 1).toNat = k := by
  unfold skipStep
  cases h : parseInt10 (jsTrim p) with
  | none => simp
  | some n =>
    by_cases hr : 1 ≤ n ∧ n ≤ 12
    · simp only [if_pos hr, Finset.mem_insert]
      constructor
      · rintro (rfl | hk)
        · exact Or.inr ⟨n, rfl, hr.1, hr.2, rfl⟩
        · exact Or.inl hk
      · rintro (hk | ⟨n', hn', h1, h2, rfl⟩)
        · exact Or.inr hk
        · cases hn'; exact Or.inl rfl
    · simp only [if_neg hr]
      constructor
      · exact Or.inl
      · rintro (hk | ⟨n', hn', h1, h2, rfl⟩)
        · exact hk
        · cases hn'; exact absurd ⟨h1, h2⟩ hr

theorem mem_foldl_skipStep (l : List String) (acc : Finset ℕ) (k : ℕ) :
    k ∈ l.foldl skipStep acc ↔ k ∈ acc ∨
      ∃ p ∈ l, ∃ n : Int, parseInt10 (jsTrim p) = some n ∧ 1 ≤ n ∧ n ≤ 12 ∧ (n - 1).toNat = k := by
  induction l generalizing acc with
  | nil => simp
  | cons p rest ih =>
    simp only [List.foldl_cons, ih, mem_skipStep, List.mem_cons]
    constructor
    · rintro ((hk | ⟨n, hn, h1, h2, rfl⟩) | ⟨q, hq, hw⟩)
      · exact Or.inl hk
      · exact Or.inr ⟨p, Or.inl rfl, n, hn, h1, h2, rfl⟩
      · exact Or.inr ⟨q, Or.inr hq, hw⟩
    · rintro (hk | ⟨q, (rfl | hq), hw⟩)
      · exact Or.inl (Or.inl hk)
      · exact Or.inl (Or.inr hw)
      · exact Or.inr ⟨q, hq, hw⟩

/-- C8 (confirmed): `parseSkipMonths_` splits on commas, trims each token,
keeps exactly the tokens `parseInt`-ing to an integer in `[1, 12]`, silently
dropping the rest, and zero-indexes the survivors; on
`"3, 7, 13, abc, 0"` it yields exactly `{2, 6}`. -/
theorem C8_skipSetParser (raw : String) (k : ℕ) :
    (k ∈ parseSkipMonths raw ↔ ∃ p ∈ jsSplitCommas raw,
        ∃ n : Int, parseInt10 (jsTrim p) = some n ∧ 1 ≤ n ∧ n ≤ 12 ∧ (n - 1).toNat = k) ∧
    parseSkipMonths "3, 7, 13, abc, 0" = {2, 6} := by
  constructor
  · unfold parseSkipMonths
    by_cases h : raw = ""
    · subst h
      rw [if_pos rfl]
      simp only [Finset.not_mem_empty, false_iff]
      rintro ⟨p, hp, n, hn, -⟩
      have hsplit : jsSplitCommas "" = [""] := by decide
      rw [hsplit, List.mem_singleton] at hp
      subst hp
      have hnone : parseInt10 (jsTrim "") = none := by decide
      rw [hnone] at hn
      cases hn
    · rw [if_neg h, mem_foldl_skipStep]
      simp
  · decide

/-! ### C5: audience routing precedence -/

/-- C5 (confirmed): destination resolution is case-insensitive trimmed
substring matching with precedence private ≻ members ≻ (general) public ≻
none, and `"Private Event for Members"` resolves to no destination. -/
theorem C5_audienceRouting (raw : String) (ids : CalendarIds) (M P : String)
    (hM : ids.memberId = some M) (hP : ids.publicId = some P) :
    (containsTok (normalizeStr raw) "private" = true →
      getWebsiteCalendarIdForTargetAudience raw ids = none) ∧
    (containsTok (normalizeStr raw) "private" = false →
     containsTok (normalizeStr raw) "members" = true →
      getWebsiteCalendarIdForTargetAudience raw ids = some M) ∧
    (containsTok (normalizeStr raw) "private" = false →
     containsTok (normalizeStr raw) "members" = false →
     (containsTok (normalizeStr raw) "general public" = true ∨
      containsTok (normalizeStr raw) "public" = true) →
      getWebsiteCalendarIdForTargetAudience raw ids = some P) ∧
    (containsTok (normalizeStr raw) "private" = false →
     containsTok (normalizeStr raw) "members" = false →
     containsTok (normalizeStr raw) "general public" = false →
     containsTok (normalizeStr raw) "public" = false →
      getWebsiteCalendarIdForTargetAudience raw ids = none) ∧
    getWebsiteCalendarIdForTargetAudience "Private Event for Members" ids = none := by
  refine ⟨fun h1 => ?_, fun h1 h2 => ?_, fun h1 h2 h3 => ?_, fun h1 h2 h3 h4 => ?_, ?_⟩
  · unfold getWebsiteCalendarIdForTargetAudience
    by_cases ht : normalizeStr raw = ""
    · simp [ht]
    · simp [ht, h1]
  · unfold getWebsiteCalendarIdForTargetAudience
    by_cases ht : normalizeStr raw = ""
    · rw [ht] at h2; cases h2
    · simp [ht, h1, h2, hM]
  · unfold getWebsiteCalendarIdForTargetAudience
    by_cases ht : normalizeStr raw = ""
    · rcases h3 with h3 | h3 <;> (rw [ht] at h3; cases h3)
    · rcases h3 with h3 | h3
      · simp [ht, h1, h2, h3, hP]
      · by_cases hgp : containsTok (normalizeStr raw) "general public" = true
        · simp [ht, h1, h2, hgp, hP]
        · simp [ht, h1, h2, hgp, h3, hP]
  · unfold getWebsiteCalendarIdForTargetAudience
    by_cases ht : normalizeStr raw = ""
    · simp [ht]
    · simp [ht, h1, h2, h3, h4]
  · unfold getWebsiteCalendarIdForTargetAudience
    rw [if_neg (by decide : ¬ normalizeStr "Private Event for Members" = "")]
    rw [if_pos (by decide : containsTok (normalizeStr "Private Event for Members") "private" = true)]

theorem C5_audienceRouting_witness :
    getWebsiteCalendarIdForTargetAudience "Members and Friends" cfgAll.calendarIds
      = some "member-cal" := by
  exact (C5_audienceRouting "Members and Friends" cfgAll.calendarIds "member-cal" "public-cal"
    rfl rfl).2.1 (by decide) (by decide)

/-! ### C4: RRULE token order (corrected) -/

theorem isPrefixList_self_append (xs ys : List Char) : isPrefixList xs (xs ++ ys) = true := by
  induction xs with
  | nil => rfl
  | cons a as ih => simp [isPrefixList, ih]

theorem isPrefixList_cons_ne (a b : Char) (as bs : List Char) (h : (a == b) = false) :
    isPrefixList (a :: as) (b :: bs) = false := by
  simp [isPrefixList, h]

theorem startsWithKey_self_append (key u : String) :
    startsWithKey key (key ++ u) = true := by
  unfold startsWithKey
  rw [String.data_append]
  exact isPrefixList_self_append _ _

theorem not_byday_key_until (u : String) : startsWithKey "BYDAY=" ("UNTIL=" ++ u) = false := by
  unfold startsWithKey
  rw [String.data_append, show "BYDAY=".data = 'B' :: ['Y', 'D', 'A', 'Y', '='] from rfl,
    show "UNTIL=".data = 'U' :: ['N', 'T', 'I', 'L', '='] from rfl, List.cons_append]
  exact isPrefixList_cons_ne _ _ _ _ rfl

theorem not_bysetpos_key_until (u : String) :
    startsWithKey "BYSETPOS=" ("UNTIL=" ++ u) = false := by
  unfold startsWithKey
  rw [String.data_append, show "BYSETPOS=".data = 'B' :: "YSETPOS=".data from rfl,
    show "UNTIL=".data = 'U' :: ['N', 'T', 'I', 'L', '='] from rfl, List.cons_append]
  exact isPrefixList_cons_ne _ _ _ _ rfl

theorem not_bysetpos_key_byday (u : String) :
    startsWithKey "BYSETPOS=" ("BYDAY=" ++ u) = false := by
  unfold startsWithKey
  rw [String.data_append, show "BYSETPOS=".data = 'B' :: 'Y' :: 'S' :: "ETPOS=".data from rfl,
    show "BYDAY=".data = 'B' :: 'Y' :: 'D' :: ['A', 'Y', '='] from rfl]
  simp only [List.cons_append, isPrefixList]
  rw [show (('B' : Char) == 'B') = true from rfl, show (('Y' : Char) == 'Y') = true from rfl,
    show (('S' : Char) == 'D') = false from rfl]
  rfl

theorem not_byday_key_bysetpos (u : String) :
    startsWithKey "BYDAY=" ("BYSETPOS=" ++ u) = false := by
  unfold startsWithKey
  rw [String.data_append, show "BYDAY=".data = 'B' :: 'Y' :: 'D' :: ['A', 'Y', '='] from rfl,
    show "BYSETPOS=".data = 'B' :: 'Y' :: 'S' :: "ETPOS=".data from rfl]
  simp only [List.cons_append, isPrefixList]
  rw [show (('B' : Char) == 'B') = true from rfl, show (('Y' : Char) == 'Y') = true from rfl,
    show (('D' : Char) == 'S') = false from rfl]
  rfl

theorem buildRruleParts_some (byday : String) (n y : ℕ) :
    buildRruleParts byday (some n) y =
      ["FREQ=MONTHLY", "BYDAY=" ++ byday, "BYSETPOS=" ++ toString n, "WKST=SU",
       "UNTIL=" ++ untilUtcOfYear y] := rfl

theorem buildRruleParts_none (byday : String) (y : ℕ) :
    buildRruleParts byday none y =
      ["FREQ=MONTHLY", "BYDAY=" ++ byday, "WKST=SU", "UNTIL=" ++ untilUtcOfYear y] := rfl

/-- C4 (corrected): for every valid weekday and ordinal, the parts array
holds exactly one `BYDAY=` token; when the ordinal is 1–4 it holds exactly
one `BYSETPOS=` token, placed immediately AFTER `BYDAY=` (index 2 vs 1), not
before it; `UNTIL=` is always the last token and is 23:59:59 UTC on
December 31 of the configured year in basic ISO form. -/
theorem C4_ruleShape (dayLbl ordLbl byday : String) (pos : Option ℕ) (y : ℕ)
    (hb : dayOfWeekToRruleByday dayLbl = some byday)
    (hp : repeatPatternToBysetpos ordLbl = pos) :
    ((buildRruleParts byday pos y).countP (fun part => startsWithKey "BYDAY=" part) = 1) ∧
    (∀ n, pos = some n →
      buildRruleParts byday pos y =
        ["FREQ=MONTHLY", "BYDAY=" ++ byday, "BYSETPOS=" ++ toString n, "WKST=SU",
         "UNTIL=" ++ untilUtcOfYear y] ∧
      (buildRruleParts byday pos y).countP (fun part => startsWithKey "BYSETPOS=" part) = 1) ∧
    (pos = none →
      (buildRruleParts byday pos y).countP (fun part => startsWithKey "BYSETPOS=" part) = 0) ∧
    (buildRruleParts byday pos y).getLast? = some ("UNTIL=" ++ pad4 y ++ "1231T235959Z") := by
  cases pos with
  | none =>
    rw [buildRruleParts_none]
    refine ⟨?_, ?_, ?_, rfl⟩
    · simp [List.countP_cons, startsWithKey_self_append, not_byday_key_until,
        show startsWithKey "BYDAY=" "FREQ=MONTHLY" = false from rfl,
        show startsWithKey "BYDAY=" "WKST=SU" = false from rfl, List.countP_nil]
    · rintro n ⟨⟩
    · intro _
      simp [List.countP_cons, not_bysetpos_key_until, not_bysetpos_key_byday,
        show startsWithKey "BYSETPOS=" "FREQ=MONTHLY" = false from rfl,
        show startsWithKey "BYSETPOS=" "WKST=SU" = false from rfl, List.countP_nil]
  | some n =>
    rw [buildRruleParts_some]
    refine ⟨?_, ?_, ?_, rfl⟩
    · simp [List.countP_cons, startsWithKey_self_append, not_byday_key_until,
        not_byday_key_bysetpos,
        show startsWithKey "BYDAY=" "FREQ=MONTHLY" = false from rfl,
        show startsWithKey "BYDAY=" "WKST=SU" = false from rfl, List.countP_nil]
    · rintro n' hn'
      cases hn'
      exact ⟨rfl, by
        simp [List.countP_cons, startsWithKey_self_append, not_bysetpos_key_until,
          not_bysetpos_key_byday,
          show startsWithKey "BYSETPOS=" "FREQ=MONTHLY" = false from rfl,
          show startsWithKey "BYSETPOS=" "WKST=SU" = false from rfl, List.countP_nil]⟩
    · rintro ⟨⟩

theorem C4_ruleShape_witness :
    (buildRruleParts "TU" (some 2) 2026).countP (fun part => startsWithKey "BYDAY=" part) = 1 :=
  (C4_ruleShape "Tuesday" "Second" "TU" (some 2) 2026 (by decide) (by decide)).1

/-- C4 counterexample: with weekday Tuesday and ordinal Second the code
serializes `BYSETPOS` AFTER `BYDAY`, not before as the claim states. -/
theorem C4_counterexample :
    dayOfWeekToRruleByday "Tuesday" = some "TU" ∧
    repeatPatternToBysetpos "Second" = some 2 ∧
    buildRrule "TU" (some 2) 2026 =
      "FREQ=MONTHLY;BYDAY=TU;BYSETPOS=2;WKST=SU;UNTIL=20261231T235959Z" ∧
    buildRrule "TU" (some 2) 2026 ≠
      "FREQ=MONTHLY;BYSETPOS=2;BYDAY=TU;WKST=SU;UNTIL=20261231T235959Z" := by
  refine ⟨by decide, by decide, by decide, by decide⟩

/-! ### C7 and C10: the date mathematics -/

theorem mem_collectWeeklyAux (fuel D d x : ℕ) (hfuel : D < d + 7 * fuel) :
    x ∈ collectWeeklyAux fuel D d ↔ ∃ k, x = d + 7 * k ∧ x ≤ D := by
  induction fuel generalizing d with
  | zero =>
    simp only [collectWeeklyAux, List.not_mem_nil, false_iff]
    rintro ⟨k, rfl, hle⟩
    omega
  | succ fuel ih =>
    simp only [collectWeeklyAux]
    by_cases hd : d ≤ D
    · rw [if_pos hd]
      simp only [List.mem_cons]
      rw [ih (d + 7) (by omega)]
      constructor
      · rintro (rfl | ⟨k, rfl, hle⟩)
        · exact ⟨0, by omega, hd⟩
        · exact ⟨k + 1, by omega, hle⟩
      · rintro ⟨k, rfl, hle⟩
        cases k with
        | zero => exact Or.inl (by omega)
        | succ k => exact Or.inr ⟨k, by omega, hle⟩
    · rw [if_neg hd]
      simp only [List.not_mem_nil, false_iff]
      rintro ⟨k, rfl, hle⟩
      omega

theorem length_collectWeeklyAux (fuel D d : ℕ) (hfuel : D < d + 7 * fuel) :
    (collectWeeklyAux fuel D d).length = if d ≤ D then (D - d) / 7 + 1 else 0 := by
  induction fuel generalizing d with
  | zero =>
    rw [if_neg (by omega)]
    rfl
  | succ fuel ih =>
    simp only [collectWeeklyAux]
    by_cases hd : d ≤ D
    · rw [if_pos hd, if_pos hd, List.length_cons, ih (d + 7) (by omega)]
      by_cases hd7 : d + 7 ≤ D
      · rw [if_pos hd7]; omega
      · rw [if_neg hd7]; omega
    · rw [if_neg hd, if_neg hd]
      rfl

theorem head?_collectWeeklyAux (fuel D d : ℕ) :
    (collectWeeklyAux fuel D d).head? = none ∨ (collectWeeklyAux fuel D d).head? = some d := by
  cases fuel with
  | zero => exact Or.inl rfl
  | succ fuel =>
    simp only [collectWeeklyAux]
    by_cases hd : d ≤ D
    · rw [if_pos hd]; exact Or.inr rfl
    · rw [if_neg hd]; exact Or.inl rfl

theorem chain'_collectWeeklyAux (fuel D d : ℕ) :
    List.Chain' (· < ·) (collectWeeklyAux fuel D d) := by
  induction fuel generalizing d with
  | zero => simp [collectWeeklyAux]
  | succ fuel ih =>
    simp only [collectWeeklyAux]
    by_cases hd : d ≤ D
    · rw [if_pos hd, List.chain'_cons']
      refine ⟨fun y hy => ?_, ih (d + 7)⟩
      rcases head?_collectWeeklyAux fuel D (d + 7) with h | h
      · rw [h] at hy; cases hy
      · rw [h] at hy
        have : y = d + 7 := by cases hy; rfl
        omega
    · rw [if_neg hd]
      simp

theorem daysInMonth_bounds (y m : ℕ) : 28 ≤ daysInMonth y m ∧ daysInMonth y m ≤ 31 := by
  unfold daysInMonth
  split
  · split <;> omega
  · split <;> omega

theorem dayOfWeek_lt (y m d : ℕ) : dayOfWeek y m d < 7 := Nat.mod_lt _ (by omega)

theorem dayOfWeek_shift (y m d : ℕ) (hd : 1 ≤ d) :
    dayOfWeek y m d = (dayOfWeek y m 1 + (d - 1)) % 7 := by
  unfold dayOfWeek absDay
  omega

/-- C7 (confirmed): with ordinal absent ("Every"), `computeMonthlyOccurrenceDates_`
returns all and only the dates of the month whose weekday matches, in ascending
order, and there are always 4 or 5 of them. -/
theorem C7_everyWeekday (y m wd : ℕ) (hm : m < 12) (hwd : wd < 7) :
    (∀ d, d ∈ computeMonthlyOccurrenceDates y m wd none ↔
        1 ≤ d ∧ d ≤ daysInMonth y m ∧ dayOfWeek y m d = wd) ∧
    List.Chain' (· < ·) (computeMonthlyOccurrenceDates y m wd none) ∧
    ((computeMonthlyOccurrenceDates y m wd none).length = 4 ∨
     (computeMonthlyOccurrenceDates y m wd none).length = 5) := by
  have hF : dayOfWeek y m 1 < 7 := dayOfWeek_lt y m 1
  have hD : 28 ≤ daysInMonth y m ∧ daysInMonth y m ≤ 31 := daysInMonth_bounds y m
  have hdel : (wd + 7 - dayOfWeek y m 1) % 7 < 7 := Nat.mod_lt _ (by omega)
  unfold computeMonthlyOccurrenceDates collectWeekly
  refine ⟨fun d => ?_, chain'_collectWeeklyAux _ _ _, ?_⟩
  · rw [mem_collectWeeklyAux _ _ _ _ (by omega)]
    constructor
    · rintro ⟨k, rfl, hle⟩
      refine ⟨by omega, hle, ?_⟩
      rw [dayOfWeek_shift y m _ (by omega)]
      omega
    · rintro ⟨h1, h2, h3⟩
      rw [dayOfWeek_shift y m d h1] at h3
      exact ⟨(d - 1 - (wd + 7 - dayOfWeek y m 1) % 7) / 7, by omega, h2⟩
  · rw [length_collectWeeklyAux _ _ _ (by omega), if_pos (by omega)]
    omega

theorem C7_everyWeekday_witness :
    (computeMonthlyOccurrenceDates 2026 0 2 none).length = 4 ∨
    (computeMonthlyOccurrenceDates 2026 0 2 none).length = 5 :=
  (C7_everyWeekday 2026 0 2 (by decide) (by decide)).2.2

/-- C10 (confirmed): for a valid weekday and ordinal 1–4 the Nth-weekday
computation always lands on day ≤ 28 and returns exactly one date in every
month; hence `computeFirstOccurrenceDateForYear_` (for "Nth" and for "Every")
always finds its date already in January (month 0). -/
theorem C10_nthAlwaysExists (y wd nth : ℕ) (hwd : wd < 7) (h1 : 1 ≤ nth) (h4 : nth ≤ 4) :
    (∀ m, m < 12 → ∃ d, computeMonthlyOccurrenceDates y m wd (some nth) = [d] ∧
        1 ≤ d ∧ d ≤ 28) ∧
    (∃ d, computeFirstOccurrenceDateForYear y wd (some nth) = some (0, d)) ∧
    (∃ d, computeFirstOccurrenceDateForYear y wd none = some (0, d)) := by
  have hall : ∀ m, ∃ d, computeMonthlyOccurrenceDates y m wd (some nth) = [d] ∧
      1 ≤ d ∧ d ≤ 28 := by
    intro m
    have hF : dayOfWeek y m 1 < 7 := dayOfWeek_lt y m 1
    have hD : 28 ≤ daysInMonth y m ∧ daysInMonth y m ≤ 31 := daysInMonth_bounds y m
    have hdel : (wd + 7 - dayOfWeek y m 1) % 7 < 7 := Nat.mod_lt _ (by omega)
    refine ⟨1 + (wd + 7 - dayOfWeek y m 1) % 7 + (nth - 1) * 7, ?_, by omega, by omega⟩
    show (if 1 + (wd + 7 - dayOfWeek y m 1) % 7 + (nth - 1) * 7 ≤ daysInMonth y m
        then [1 + (wd + 7 - dayOfWeek y m 1) % 7 + (nth - 1) * 7] else []) = _
    rw [if_pos (by omega)]
  refine ⟨fun m _ => hall m, ?_, ?_⟩
  · obtain ⟨d, hd, -, -⟩ := hall 0
    refine ⟨d, ?_⟩
    unfold computeFirstOccurrenceDateForYear
    simp only [firstOccAux, hd]
  · have hF : dayOfWeek y 0 1 < 7 := dayOfWeek_lt y 0 1
    have hlen := (C7_everyWeekday y 0 wd (by omega) hwd).2.2
    cases hl : computeMonthlyOccurrenceDates y 0 wd none with
    | nil => rw [hl] at hlen; simp at hlen
    | cons a t =>
      refine ⟨a, ?_⟩
      unfold computeFirstOccurrenceDateForYear
      simp only [firstOccAux, hl]

theorem C10_nthAlwaysExists_witness :
    computeFirstOccurrenceDateForYear 2026 2 (some 2) ≠ none ∧
    Option.map Prod.fst (computeFirstOccurrenceDateForYear 2026 2 (some 2)) = some 0 := by
  obtain ⟨d, hd⟩ := (C10_nthAlwaysExists 2026 2 2 (by decide) (by decide) (by decide)).2.1
  rw [hd]
  exact ⟨Option.noConfusion, rfl⟩

/-! ### Engine lemmas: slot sections -/

theorem fr1BuildingSlot_skip (w : World) (bid : Option String) (em : String) (r : Fr1Row)
    (bs be : JsDate) (h : r.existingBuildingEventId ≠ "") :
    fr1BuildingSlot w bid em r bs be = {} := by
  cases bid with
  | none => rfl
  | some c =>
    simp only [fr1BuildingSlot]
    rw [if_pos (Or.inr h)]

theorem fr1WebsiteSlot_skip (w : World) (wid : Option String) (em : String) (r : Fr1Row)
    (bs be : JsDate) (h : r.existingWebsiteEventId ≠ "") :
    fr1WebsiteSlot w wid em r bs be = {} := by
  cases wid with
  | none => rfl
  | some c =>
    simp only [fr1WebsiteSlot]
    rw [if_pos h]

theorem fr2BuildingSlot_skip (cr : Except String (Option String)) (bid : Option String)
    (em : String) (r : Fr2Row) (rr : String) (bs be : JsDate)
    (h : r.existingBuildingSeriesId ≠ "") :
    fr2BuildingSlot cr bid em r rr bs be = {} := by
  cases bid with
  | none => rfl
  | some c =>
    simp only [fr2BuildingSlot]
    rw [if_pos (Or.inr h)]

theorem fr2WebsiteSlot_skip (cr : Except String (Option String)) (wid : Option String)
    (em : String) (r : Fr2Row) (rr : String) (bs be : JsDate)
    (h : r.existingWebsiteSeriesId ≠ "") :
    (fr2WebsiteSlot cr wid em r rr bs be).calls = [] ∧
    (fr2WebsiteSlot cr wid em r rr bs be).writes = [] := by
  cases wid with
  | none =>
    simp only [fr2WebsiteSlot]
    split <;> exact ⟨rfl, rfl⟩
  | some c =>
    simp only [fr2WebsiteSlot]
    rw [if_pos h]
    exact ⟨rfl, rfl⟩

theorem fr1BuildingSlot_shape (w : World) (bid : Option String) (em : String) (r : Fr1Row)
    (bs be : JsDate) :
    (∀ c ∈ (fr1BuildingSlot w bid em r bs be).calls, c.slot = Slot.fr1Building) ∧
    (∀ fw ∈ (fr1BuildingSlot w bid em r bs be).writes,
      ∃ v, fw = FieldWrite.buildingEventId v) := by
  cases bid with
  | none => simp [fr1BuildingSlot]
  | some c =>
    simp only [fr1BuildingSlot]
    split
    · simp
    · split
      · split <;> simp
      · simp

theorem fr1WebsiteSlot_shape (w : World) (wid : Option String) (em : String) (r : Fr1Row)
    (bs be : JsDate) :
    (∀ c ∈ (fr1WebsiteSlot w wid em r bs be).calls, c.slot = Slot.fr1Website) ∧
    (∀ fw ∈ (fr1WebsiteSlot w wid em r bs be).writes,
      ∃ v, fw = FieldWrite.websiteEventId v) := by
  cases wid with
  | none => simp [fr1WebsiteSlot]
  | some c =>
    simp only [fr1WebsiteSlot]
    split
    · simp
    · split
      · split <;> simp
      · simp

theorem fr2BuildingSlot_shape (cr : Except String (Option String)) (bid : Option String)
    (em : String) (r : Fr2Row) (rr : String) (bs be : JsDate) :
    (∀ c ∈ (fr2BuildingSlot cr bid em r rr bs be).calls, c.slot = Slot.fr2Building) ∧
    (∀ fw ∈ (fr2BuildingSlot cr bid em r rr bs be).writes,
      ∃ v, fw = FieldWrite.buildingSeriesId v) := by
  cases bid with
  | none => simp [fr2BuildingSlot]
  | some c =>
    simp only [fr2BuildingSlot]
    split
    · simp
    · split <;> simp

theorem fr2WebsiteSlot_shape (cr : Except String (Option String)) (wid : Option String)
    (em : String) (r : Fr2Row) (rr : String) (bs be : JsDate) :
    (∀ c ∈ (fr2WebsiteSlot cr wid em r rr bs be).calls, c.slot = Slot.fr2Website) ∧
    (∀ fw ∈ (fr2WebsiteSlot cr wid em r rr bs be).writes,
      ∃ v, fw = FieldWrite.websiteSeriesId v) := by
  cases wid with
  | none =>
    simp only [fr2WebsiteSlot]
    split <;> simp
  | some c =>
    simp only [fr2WebsiteSlot]
    split
    · simp
    · split <;> simp

theorem fr2BuildingSlot_uncaught (cr : Except String (Option String)) (bid : Option String)
    (em : String) (r : Fr2Row) (rr : String) (bs be : JsDate) :
    (fr2BuildingSlot cr bid em r rr bs be).uncaught = none := by
  cases bid with
  | none => rfl
  | some c =>
    simp only [fr2BuildingSlot]
    split
    · rfl
    · split <;> rfl

theorem fr2WebsiteSlot_uncaught (cr : Except String (Option String)) (wid : Option String)
    (em : String) (r : Fr2Row) (rr : String) (bs be : JsDate) :
    (fr2WebsiteSlot cr wid em r rr bs be).uncaught = none := by
  cases wid with
  | none =>
    simp only [fr2WebsiteSlot]
    split <;> rfl
  | some c =>
    simp only [fr2WebsiteSlot]
    split
    · rfl
    · split <;> rfl

/-! ### Engine lemmas: dispatcher -/

theorem onApprovalEdit_fr1_eq (w : World) (cfg : Config) (e : EditEvent) (r : Fr1Row)
    (hr : e.sheetRow = SheetRow.fr1 r) :
    onApprovalEdit w cfg e =
      if e.rowIndex < 2 then {} else
      if e.col ≠ 1 then {} else
      withApprover e.approverEmail
        (runFr1Body w cfg e.newValue e.oldValue e.approverEmail r) := by
  unfold onApprovalEdit
  rw [hr]

theorem onApprovalEdit_fr2_eq (w : World) (cfg : Config) (e : EditEvent) (r : Fr2Row)
    (hr : e.sheetRow = SheetRow.fr2 r) :
    onApprovalEdit w cfg e =
      if e.rowIndex < 2 then {} else
      if e.col = 20 then { rebuilds := 1 } else
      if e.col ≠ 1 then {} else
      withApprover e.approverEmail
        (runFr2Body w cfg e.newValue e.oldValue e.approverEmail r) := by
  unfold onApprovalEdit
  rw [hr]

theorem onApprovalEdit_other_eq (w : World) (cfg : Config) (e : EditEvent)
    (hr : e.sheetRow = SheetRow.other) :
    onApprovalEdit w cfg e =
      if e.rowIndex < 2 then {} else
      if e.col ≠ 1 then {} else
      withApprover e.approverEmail {} := by
  unfold onApprovalEdit
  rw [hr]

theorem withApprover_calls (em : String) (res : RunResult) :
    (withApprover em res).calls = res.calls := rfl

theorem withApprover_notes (em : String) (res : RunResult) :
    (withApprover em res).notes = res.notes := rfl

theorem withApprover_rebuilds (em : String) (res : RunResult) :
    (withApprover em res).rebuilds = res.rebuilds := rfl

theorem withApprover_uncaught (em : String) (res : RunResult) :
    (withApprover em res).uncaught = res.uncaught := rfl

theorem mem_withApprover_writes (em : String) (res : RunResult) (fw : FieldWrite)
    (h : fw ∈ (withApprover em res).writes) :
    fw = FieldWrite.approver em ∨ fw ∈ res.writes := by
  unfold withApprover at h
  simp only at h
  rw [List.mem_append] at h
  rcases h with h | h
  · split at h
    · cases h
    · rw [List.mem_singleton] at h
      exact Or.inl h
  · exact Or.inr h

/-! ### Engine lemmas: per-sheet bodies and flagged slots -/

theorem runFr1Body_buildingFree (w : World) (cfg : Config) (nv ov em : String) (r : Fr1Row)
    (h : r.existingBuildingEventId ≠ "") :
    (∀ c ∈ (runFr1Body w cfg nv ov em r).calls, c.slot ≠ Slot.fr1Building) ∧
    (∀ v, FieldWrite.buildingEventId v ∉ (runFr1Body w cfg nv ov em r).writes) := by
  unfold runFr1Body
  split
  · simp
  · split
    · simp
    · next bs be heq =>
      rw [fr1BuildingSlot_skip w cfg.calendarIds.buildingId em r bs be h]
      have hsh := fr1WebsiteSlot_shape w
        (getWebsiteCalendarIdForTargetAudience r.targetAudience cfg.calendarIds) em r bs be
      constructor
      · intro c hc
        have hc' : c ∈ ([] : List Call) ++ (fr1WebsiteSlot w
            (getWebsiteCalendarIdForTargetAudience r.targetAudience cfg.calendarIds)
            em r bs be).calls := hc
        rw [List.nil_append] at hc'
        rw [hsh.1 c hc']
        exact fun hx => Slot.noConfusion hx
      · intro v hv
        have hv' : FieldWrite.buildingEventId v ∈ ([] : List FieldWrite) ++ (fr1WebsiteSlot w
            (getWebsiteCalendarIdForTargetAudience r.targetAudience cfg.calendarIds)
            em r bs be).writes := hv
        rw [List.nil_append] at hv'
        obtain ⟨u, hu⟩ := hsh.2 _ hv'
        exact FieldWrite.noConfusion hu

theorem runFr1Body_websiteFree (w : World) (cfg : Config) (nv ov em : String) (r : Fr1Row)
    (h : r.existingWebsiteEventId ≠ "") :
    (∀ c ∈ (runFr1Body w cfg nv ov em r).calls, c.slot ≠ Slot.fr1Website) ∧
    (∀ v, FieldWrite.websiteEventId v ∉ (runFr1Body w cfg nv ov em r).writes) := by
  unfold runFr1Body
  split
  · simp
  · split
    · simp
    · next bs be heq =>
      rw [fr1WebsiteSlot_skip w
        (getWebsiteCalendarIdForTargetAudience r.targetAudience cfg.calendarIds) em r bs be h]
      have hsh := fr1BuildingSlot_shape w cfg.calendarIds.buildingId em r bs be
      split
      · constructor
        · intro c hc
          rw [hsh.1 c hc]
          exact fun hx => Slot.noConfusion hx
        · intro v hv
          obtain ⟨u, hu⟩ := hsh.2 _ hv
          exact FieldWrite.noConfusion hu
      · constructor
        · intro c hc
          have hc' : c ∈ (fr1BuildingSlot w cfg.calendarIds.buildingId em r bs be).calls
              ++ ([] : List Call) := hc
          rw [List.append_nil] at hc'
          rw [hsh.1 c hc']
          exact fun hx => Slot.noConfusion hx
        · intro v hv
          have hv' : FieldWrite.websiteEventId v ∈
              (fr1BuildingSlot w cfg.calendarIds.buildingId em r bs be).writes
              ++ ([] : List FieldWrite) := hv
          rw [List.append_nil] at hv'
          obtain ⟨u, hu⟩ := hsh.2 _ hv'
          exact FieldWrite.noConfusion hu

theorem runFr2Body_buildingFree (w : World) (cfg : Config) (nv ov em : String) (r : Fr2Row)
    (h : r.existingBuildingSeriesId ≠ "") :
    (∀ c ∈ (runFr2Body w cfg nv ov em r).calls, c.slot ≠ Slot.fr2Building) ∧
    (∀ v, FieldWrite.buildingSeriesId v ∉ (runFr2Body w cfg nv ov em r).writes) := by
  unfold runFr2Body
  split
  · simp
  · split
    · simp
    · split
      · simp
      · next rrule bs be heq =>
        rw [fr2BuildingSlot_skip w.fr2BuildingCreate cfg.calendarIds.buildingId em r rrule bs be h]
        have hsh := fr2WebsiteSlot_shape w.fr2WebsiteCreate
          (getWebsiteCalendarIdForTargetAudience r.targetAudience cfg.calendarIds) em r rrule bs be
        constructor
        · intro c hc
          have hc' : c ∈ ([] : List Call) ++ (fr2WebsiteSlot w.fr2WebsiteCreate
              (getWebsiteCalendarIdForTargetAudience r.targetAudience cfg.calendarIds)
              em r rrule bs be).calls := hc
          rw [List.nil_append] at hc'
          rw [hsh.1 c hc']
          exact fun hx => Slot.noConfusion hx
        · intro v hv
          have hv' : FieldWrite.buildingSeriesId v ∈ ([] : List FieldWrite)
              ++ (fr2WebsiteSlot w.fr2WebsiteCreate
                (getWebsiteCalendarIdForTargetAudience r.targetAudience cfg.calendarIds)
                em r rrule bs be).writes := hv
          rw [List.nil_append] at hv'
          obtain ⟨u, hu⟩ := hsh.2 _ hv'
          exact FieldWrite.noConfusion hu

theorem runFr2Body_websiteFree (w : World) (cfg : Config) (nv ov em : String) (r : Fr2Row)
    (h : r.existingWebsiteSeriesId ≠ "") :
    (∀ c ∈ (runFr2Body w cfg nv ov em r).calls, c.slot ≠ Slot.fr2Website) ∧
    (∀ v, FieldWrite.websiteSeriesId v ∉ (runFr2Body w cfg nv ov em r).writes) := by
  unfold runFr2Body
  split
  · simp
  · split
    · simp
    · split
      · simp
      · next rrule bs be heq =>
        obtain ⟨hwc, hww⟩ := fr2WebsiteSlot_skip w.fr2WebsiteCreate
          (getWebsiteCalendarIdForTargetAudience r.targetAudience cfg.calendarIds) em r rrule bs be h
        have hsh := fr2BuildingSlot_shape w.fr2BuildingCreate cfg.calendarIds.buildingId
          em r rrule bs be
        constructor
        · intro c hc
          simp only [hwc, List.append_nil] at hc
          rw [hsh.1 c hc]
          exact fun hx => Slot.noConfusion hx
        · intro v hv
          simp only [hww, List.append_nil] at hv
          obtain ⟨u, hu⟩ := hsh.2 _ hv
          exact FieldWrite.noConfusion hu

/-! ### C1: write-once identifier fields -/

/-- C1 (confirmed): on every invocation of the approval-edit handler, a slot
whose identifier field is already non-empty performs no collaborator call for
that slot and no write to that identifier field. -/
theorem C1_writeOnce (w : World) (cfg : Config) (e : EditEvent) :
    (∀ r, e.sheetRow = SheetRow.fr1 r → r.existingBuildingEventId ≠ "" →
      (∀ c ∈ (onApprovalEdit w cfg e).calls, c.slot ≠ Slot.fr1Building) ∧
      (∀ v, FieldWrite.buildingEventId v ∉ (onApprovalEdit w cfg e).writes)) ∧
    (∀ r, e.sheetRow = SheetRow.fr1 r → r.existingWebsiteEventId ≠ "" →
      (∀ c ∈ (onApprovalEdit w cfg e).calls, c.slot ≠ Slot.fr1Website) ∧
      (∀ v, FieldWrite.websiteEventId v ∉ (onApprovalEdit w cfg e).writes)) ∧
    (∀ r, e.sheetRow = SheetRow.fr2 r → r.existingBuildingSeriesId ≠ "" →
      (∀ c ∈ (onApprovalEdit w cfg e).calls, c.slot ≠ Slot.fr2Building) ∧
      (∀ v, FieldWrite.buildingSeriesId v ∉ (onApprovalEdit w cfg e).writes)) ∧
    (∀ r, e.sheetRow = SheetRow.fr2 r → r.existingWebsiteSeriesId ≠ "" →
      (∀ c ∈ (onApprovalEdit w cfg e).calls, c.slot ≠ Slot.fr2Website) ∧
      (∀ v, FieldWrite.websiteSeriesId v ∉ (onApprovalEdit w cfg e).writes)) := by
  refine ⟨fun r hr hne => ?_, fun r hr hne => ?_, fun r hr hne => ?_, fun r hr hne => ?_⟩
  · rw [onApprovalEdit_fr1_eq w cfg e r hr]
    split
    · simp
    · split
      · simp
      · have hbody := runFr1Body_buildingFree w cfg e.newValue e.oldValue e.approverEmail r hne
        rw [withApprover_calls]
        refine ⟨hbody.1, fun v hv => ?_⟩
        rcases mem_withApprover_writes _ _ _ hv with hv' | hv'
        · exact FieldWrite.noConfusion hv'
        · exact hbody.2 v hv'
  · rw [onApprovalEdit_fr1_eq w cfg e r hr]
    split
    · simp
    · split
      · simp
      · have hbody := runFr1Body_websiteFree w cfg e.newValue e.oldValue e.approverEmail r hne
        rw [withApprover_calls]
        refine ⟨hbody.1, fun v hv => ?_⟩
        rcases mem_withApprover_writes _ _ _ hv with hv' | hv'
        · exact FieldWrite.noConfusion hv'
        · exact hbody.2 v hv'
  · rw [onApprovalEdit_fr2_eq w cfg e r hr]
    split
    · simp
    · split
      · simp
      · split
        · simp
        · have hbody := runFr2Body_buildingFree w cfg e.newValue e.oldValue e.approverEmail r hne
          rw [withApprover_calls]
          refine ⟨hbody.1, fun v hv => ?_⟩
          rcases mem_withApprover_writes _ _ _ hv with hv' | hv'
          · exact FieldWrite.noConfusion hv'
          · exact hbody.2 v hv'
  · rw [onApprovalEdit_fr2_eq w cfg e r hr]
    split
    · simp
    · split
      · simp
      · split
        · simp
        · have hbody := runFr2Body_websiteFree w cfg e.newValue e.oldValue e.approverEmail r hne
          rw [withApprover_calls]
          refine ⟨hbody.1, fun v hv => ?_⟩
          rcases mem_withApprover_writes _ _ _ hv with hv' | hv'
          · exact FieldWrite.noConfusion hv'
          · exact hbody.2 v hv'

theorem C1_writeOnce_witness :
    FieldWrite.buildingEventId "X" ∉ (onApprovalEdit worldOk cfgAll eOneKept).writes ∧
    FieldWrite.websiteEventId "X" ∉ (onApprovalEdit worldOk cfgAll eOneKept).writes ∧
    FieldWrite.buildingSeriesId "X" ∉ (onApprovalEdit worldOk cfgAll eGameKept).writes ∧
    FieldWrite.websiteSeriesId "X" ∉ (onApprovalEdit worldOk cfgAll eGameKept).writes := by
  have h1 := C1_writeOnce worldOk cfgAll eOneKept
  have h2 := C1_writeOnce worldOk cfgAll eGameKept
  exact ⟨(h1.1 rowOneKept rfl (by decide)).2 "X",
    (h1.2.1 rowOneKept rfl (by decide)).2 "X",
    (h2.2.2.1 rowGameKept rfl (by decide)).2 "X",
    (h2.2.2.2 rowGameKept rfl (by decide)).2 "X"⟩

/-! ### C2: re-approval no-op (corrected) -/

/-- C2 (corrected): re-approval (old = Approved, new = Approved) performs
zero collaborator calls, zero notes, no rebuild and no uncaught error, but
the handler still re-writes the Approver field whenever the editor's email is
available, so "zero field writes" does not hold. -/
theorem C2_reapprovalSecondRun (w : World) (cfg : Config) (e : EditEvent)
    (hrow : 2 ≤ e.rowIndex) (hcol : e.col = 1)
    (hold : e.oldValue = "Approved") (hnew : e.newValue = "Approved") :
    (onApprovalEdit w cfg e).calls = [] ∧
    (onApprovalEdit w cfg e).notes = [] ∧
    (onApprovalEdit w cfg e).rebuilds = 0 ∧
    (onApprovalEdit w cfg e).uncaught = none ∧
    (onApprovalEdit w cfg e).writes =
      (if e.approverEmail = "" then [] else [FieldWrite.approver e.approverEmail]) := by
  cases hsr : e.sheetRow with
  | fr1 r =>
    rw [onApprovalEdit_fr1_eq w cfg e r hsr, if_neg (by omega), if_neg (by omega)]
    unfold runFr1Body
    rw [if_pos (Or.inr hold)]
    unfold withApprover
    simp
  | fr2 r =>
    rw [onApprovalEdit_fr2_eq w cfg e r hsr, if_neg (by omega), if_neg (by omega),
      if_neg (by omega)]
    unfold runFr2Body
    rw [if_neg (by simp [hnew]), if_pos (Or.inr hold)]
    unfold withApprover
    simp
  | other =>
    rw [onApprovalEdit_other_eq w cfg e hsr, if_neg (by omega), if_neg (by omega)]
    unfold withApprover
    simp

/-- C2 counterexample: a concrete re-approval with an available editor email
performs a field write (the Approver column), so the write trace is not
empty as the claim requires. -/
theorem C2_counterexample :
    (onApprovalEdit worldOk cfgAll eGameReapprove).calls = [] ∧
    (onApprovalEdit worldOk cfgAll eGameReapprove).writes =
      [FieldWrite.approver "approver@example.com"] ∧
    (onApprovalEdit worldOk cfgAll eGameReapprove).writes ≠ [] := by
  refine ⟨by decide, by decide, by decide⟩

theorem C2_reapprovalSecondRun_witness :
    (onApprovalEdit worldOk cfgAll eGameReapprove).calls = [] :=
  (C2_reapprovalSecondRun worldOk cfgAll eGameReapprove (by decide) (by decide)
    (by decide) (by decide)).1

/-! ### C9: ordinal label handling (corrected) -/

theorem fr2Prelude_none_of_badWeekday (cfg : Config) (r : Fr2Row)
    (h : dayOfWeekToJsIndex r.dayOfWeek = none) : fr2Prelude cfg r = none := by
  unfold fr2Prelude
  split
  · rfl
  · split
    · split
      · exfalso; simp_all
      · rfl
    · rfl

/-- C9 (corrected): `repeatPatternToBysetpos_` maps First…Fourth to 1…4 and
"Every" to none, but every unrecognized ordinal label ALSO yields none —
indistinguishable from "Every" — and causes no failure and no skip; only an
unrecognized WEEKDAY label makes the handler skip the record's sync step
(no collaborator calls and no series-identifier writes). -/
theorem C9_ordinalFallback :
    (repeatPatternToBysetpos "Every" = none ∧ repeatPatternToBysetpos "First" = some 1 ∧
     repeatPatternToBysetpos "Second" = some 2 ∧ repeatPatternToBysetpos "Third" = some 3 ∧
     repeatPatternToBysetpos "Fourth" = some 4) ∧
    (∀ lbl, jsTrim lbl ≠ "Every" → jsTrim lbl ≠ "First" → jsTrim lbl ≠ "Second" →
      jsTrim lbl ≠ "Third" → jsTrim lbl ≠ "Fourth" → repeatPatternToBysetpos lbl = none) ∧
    (∀ (w : World) (cfg : Config) (e : EditEvent) (r : Fr2Row),
      e.sheetRow = SheetRow.fr2 r → dayOfWeekToJsIndex r.dayOfWeek = none →
      (onApprovalEdit w cfg e).calls = [] ∧
      (∀ v, FieldWrite.buildingSeriesId v ∉ (onApprovalEdit w cfg e).writes) ∧
      (∀ v, FieldWrite.websiteSeriesId v ∉ (onApprovalEdit w cfg e).writes)) := by
  refine ⟨⟨rfl, rfl, rfl, rfl, rfl⟩, ?_, ?_⟩
  · intro lbl h1 h2 h3 h4 h5
    unfold repeatPatternToBysetpos
    rw [if_neg h1, if_neg h2, if_neg h3, if_neg h4, if_neg h5]
  · intro w cfg e r hr hwd
    rw [onApprovalEdit_fr2_eq w cfg e r hr]
    split
    · simp
    · split
      · simp
      · split
        · simp
        · unfold runFr2Body
          split
          · refine ⟨rfl, fun v hv => ?_, fun v hv => ?_⟩ <;>
              (rcases mem_withApprover_writes _ _ _ hv with hv' | hv'
               · exact FieldWrite.noConfusion hv'
               · cases hv')
          · split
            · refine ⟨rfl, fun v hv => ?_, fun v hv => ?_⟩ <;>
                (rcases mem_withApprover_writes _ _ _ hv with hv' | hv'
                 · exact FieldWrite.noConfusion hv'
                 · cases hv')
            · rw [fr2Prelude_none_of_badWeekday cfg r hwd]
              refine ⟨rfl, fun v hv => ?_, fun v hv => ?_⟩ <;>
                (rcases mem_withApprover_writes _ _ _ hv with hv' | hv'
                 · exact FieldWrite.noConfusion hv'
                 · cases hv')

/-- C9 counterexample: the unrecognized ordinal label "Banana" maps to the
same null result as "Every" (no distinguishable failure), and the record's
sync step still runs — the handler issues collaborator calls. -/
theorem C9_counterexample :
    repeatPatternToBysetpos "Banana" = repeatPatternToBysetpos "Every" ∧
    (onApprovalEdit worldOk cfgAll eBananaApprove).calls ≠ [] := by
  refine ⟨by decide, by decide⟩

theorem C9_ordinalFallback_witness :
    repeatPatternToBysetpos "Banana" = none ∧
    (onApprovalEdit worldOk cfgAll eNoWdApprove).calls = [] := by
  refine ⟨C9_ordinalFallback.2.1 "Banana" (by decide) (by decide) (by decide) (by decide)
    (by decide),
    (C9_ordinalFallback.2.2 worldOk cfgAll eNoWdApprove rowNoWd rfl (by decide)).1⟩

/-! ### C3: destination-slot independence (corrected) -/

theorem runFr2Body_uncaught (w : World) (cfg : Config) (nv ov em : String) (r : Fr2Row) :
    (runFr2Body w cfg nv ov em r).uncaught = none := by
  unfold runFr2Body
  split
  · rfl
  · split
    · rfl
    · split
      · rfl
      · rfl

theorem fr2BuildingFilterWebsiteCalls (cr : Except String (Option String)) (bid : Option String)
    (em : String) (r : Fr2Row) (rr : String) (bs be : JsDate) :
    (fr2BuildingSlot cr bid em r rr bs be).calls.filter
      (fun c => decide (c.slot = Slot.fr2Website)) = [] := by
  apply List.filter_eq_nil_iff.mpr
  intro c hc
  have := (fr2BuildingSlot_shape cr bid em r rr bs be).1 c hc
  simp [this]

theorem fr2WebsiteFilterWebsiteCalls (cr : Except String (Option String)) (wid : Option String)
    (em : String) (r : Fr2Row) (rr : String) (bs be : JsDate) :
    (fr2WebsiteSlot cr wid em r rr bs be).calls.filter
      (fun c => decide (c.slot = Slot.fr2Website)) =
      (fr2WebsiteSlot cr wid em r rr bs be).calls := by
  apply List.filter_eq_self.mpr
  intro c hc
  have := (fr2WebsiteSlot_shape cr wid em r rr bs be).1 c hc
  simp [this]

theorem fr2WebsiteFilterBuildingCalls (cr : Except String (Option String)) (wid : Option String)
    (em : String) (r : Fr2Row) (rr : String) (bs be : JsDate) :
    (fr2WebsiteSlot cr wid em r rr bs be).calls.filter
      (fun c => decide (c.slot = Slot.fr2Building)) = [] := by
  apply List.filter_eq_nil_iff.mpr
  intro c hc
  have := (fr2WebsiteSlot_shape cr wid em r rr bs be).1 c hc
  simp [this]

theorem fr2BuildingFilterBuildingCalls (cr : Except String (Option String)) (bid : Option String)
    (em : String) (r : Fr2Row) (rr : String) (bs be : JsDate) :
    (fr2BuildingSlot cr bid em r rr bs be).calls.filter
      (fun c => decide (c.slot = Slot.fr2Building)) =
      (fr2BuildingSlot cr bid em r rr bs be).calls := by
  apply List.filter_eq_self.mpr
  intro c hc
  have := (fr2BuildingSlot_shape cr bid em r rr bs be).1 c hc
  simp [this]

theorem fr2BuildingFilterWebsiteWrites (cr : Except String (Option String)) (bid : Option String)
    (em : String) (r : Fr2Row) (rr : String) (bs be : JsDate) :
    (fr2BuildingSlot cr bid em r rr bs be).writes.filter
      (fun fw => match fw with | FieldWrite.websiteSeriesId _ => true | _ => false) = [] := by
  apply List.filter_eq_nil_iff.mpr
  intro fw hfw
  obtain ⟨v, rfl⟩ := (fr2BuildingSlot_shape cr bid em r rr bs be).2 fw hfw
  simp

theorem fr2WebsiteFilterWebsiteWrites (cr : Except String (Option String)) (wid : Option String)
    (em : String) (r : Fr2Row) (rr : String) (bs be : JsDate) :
    (fr2WebsiteSlot cr wid em r rr bs be).writes.filter
      (fun fw => match fw with | FieldWrite.websiteSeriesId _ => true | _ => false) =
      (fr2WebsiteSlot cr wid em r rr bs be).writes := by
  apply List.filter_eq_self.mpr
  intro fw hfw
  obtain ⟨v, rfl⟩ := (fr2WebsiteSlot_shape cr wid em r rr bs be).2 fw hfw
  simp

theorem fr2WebsiteFilterBuildingWrites (cr : Except String (Option String)) (wid : Option String)
    (em : String) (r : Fr2Row) (rr : String) (bs be : JsDate) :
    (fr2WebsiteSlot cr wid em r rr bs be).writes.filter
      (fun fw => match fw with | FieldWrite.buildingSeriesId _ => true | _ => false) = [] := by
  apply List.filter_eq_nil_iff.mpr
  intro fw hfw
  obtain ⟨v, rfl⟩ := (fr2WebsiteSlot_shape cr wid em r rr bs be).2 fw hfw
  simp

theorem fr2BuildingFilterBuildingWrites (cr : Except String (Option String)) (bid : Option String)
    (em : String) (r : Fr2Row) (rr : String) (bs be : JsDate) :
    (fr2BuildingSlot cr bid em r rr bs be).writes.filter
      (fun fw => match fw with | FieldWrite.buildingSeriesId _ => true | _ => false) =
      (fr2BuildingSlot cr bid em r rr bs be).writes := by
  apply List.filter_eq_self.mpr
  intro fw hfw
  obtain ⟨v, rfl⟩ := (fr2BuildingSlot_shape cr bid em r rr bs be).2 fw hfw
  simp

/-- The website slot's calls and identifier writes do not depend on the
building collaborator's outcome, and vice versa (body level). -/
theorem runFr2Body_frame (w : World) (cfg : Config) (nv ov em : String) (r : Fr2Row)
    (x y : Except String (Option String)) :
    callsOfSlot (runFr2Body { w with fr2BuildingCreate := x } cfg nv ov em r) Slot.fr2Website =
      callsOfSlot (runFr2Body w cfg nv ov em r) Slot.fr2Website ∧
    websiteSeriesWrites (runFr2Body { w with fr2BuildingCreate := x } cfg nv ov em r) =
      websiteSeriesWrites (runFr2Body w cfg nv ov em r) ∧
    callsOfSlot (runFr2Body { w with fr2WebsiteCreate := y } cfg nv ov em r) Slot.fr2Building =
      callsOfSlot (runFr2Body w cfg nv ov em r) Slot.fr2Building ∧
    buildingSeriesWrites (runFr2Body { w with fr2WebsiteCreate := y } cfg nv ov em r) =
      buildingSeriesWrites (runFr2Body w cfg nv ov em r) := by
  unfold runFr2Body callsOfSlot websiteSeriesWrites buildingSeriesWrites
  by_cases h1 : ov = "Approved" ∧ nv ≠ "Approved"
  · simp only [if_pos h1]
    refine ⟨?_, ?_, ?_, ?_⟩ <;> trivial
  · simp only [if_neg h1]
    by_cases h2 : nv ≠ "Approved" ∨ ov = "Approved"
    · simp only [if_pos h2]
      refine ⟨?_, ?_, ?_, ?_⟩ <;> trivial
    · simp only [if_neg h2]
      cases hp : fr2Prelude cfg r with
      | none =>
        refine ⟨?_, ?_, ?_, ?_⟩ <;> trivial
      | some trip =>
        obtain ⟨rrule, bs, be⟩ := trip
        refine ⟨?_, ?_, ?_, ?_⟩
        · dsimp only
          rw [List.filter_append, List.filter_append,
            fr2BuildingFilterWebsiteCalls, fr2BuildingFilterWebsiteCalls]
        · dsimp only
          rw [List.filter_append, List.filter_append,
            fr2BuildingFilterWebsiteWrites, fr2BuildingFilterWebsiteWrites]
        · dsimp only
          rw [List.filter_append, List.filter_append,
            fr2WebsiteFilterBuildingCalls, fr2WebsiteFilterBuildingCalls]
        · dsimp only
          rw [List.filter_append, List.filter_append,
            fr2WebsiteFilterBuildingWrites, fr2WebsiteFilterBuildingWrites]

/-- C3 (corrected, restricted to recurring records): for a `Form Responses 2`
edit, no error ever escapes the handler (each series slot call sits in its own
try/catch), and each slot's calls and identifier writes are invariant under
any change — including failure — of the other slot's collaborator outcome.
(For one-shot records the claim fails; see the counterexample.) -/
theorem C3_slotIndependence (w : World) (cfg : Config) (e : EditEvent) (r : Fr2Row)
    (hr : e.sheetRow = SheetRow.fr2 r) (x y : Except String (Option String)) :
    (onApprovalEdit w cfg e).uncaught = none ∧
    callsOfSlot (onApprovalEdit { w with fr2BuildingCreate := x } cfg e) Slot.fr2Website =
      callsOfSlot (onApprovalEdit w cfg e) Slot.fr2Website ∧
    websiteSeriesWrites (onApprovalEdit { w with fr2BuildingCreate := x } cfg e) =
      websiteSeriesWrites (onApprovalEdit w cfg e) ∧
    callsOfSlot (onApprovalEdit { w with fr2WebsiteCreate := y } cfg e) Slot.fr2Building =
      callsOfSlot (onApprovalEdit w cfg e) Slot.fr2Building ∧
    buildingSeriesWrites (onApprovalEdit { w with fr2WebsiteCreate := y } cfg e) =
      buildingSeriesWrites (onApprovalEdit w cfg e) := by
  rw [onApprovalEdit_fr2_eq w cfg e r hr, onApprovalEdit_fr2_eq { w with fr2BuildingCreate := x }
    cfg e r hr, onApprovalEdit_fr2_eq { w with fr2WebsiteCreate := y } cfg e r hr]
  by_cases h1 : e.rowIndex < 2
  · simp only [if_pos h1]
    refine ⟨?_, ?_, ?_, ?_, ?_⟩ <;> trivial
  · simp only [if_neg h1]
    by_cases h2 : e.col = 20
    · simp only [if_pos h2]
      refine ⟨?_, ?_, ?_, ?_, ?_⟩ <;> trivial
    · simp only [if_neg h2]
      by_cases h3 : e.col ≠ 1
      · simp only [if_pos h3]
        refine ⟨?_, ?_, ?_, ?_, ?_⟩ <;> trivial
      · simp only [if_neg h3]
        have hframe := runFr2Body_frame w cfg e.newValue e.oldValue e.approverEmail r x y
        refine ⟨?_, ?_, ?_, ?_, ?_⟩
        · rw [withApprover_uncaught]
          exact runFr2Body_uncaught w cfg e.newValue e.oldValue e.approverEmail r
        · show callsOfSlot (withApprover _ _) _ = callsOfSlot (withApprover _ _) _
          unfold callsOfSlot
          rw [withApprover_calls, withApprover_calls]
          exact hframe.1
        · show websiteSeriesWrites (withApprover _ _) = websiteSeriesWrites (withApprover _ _)
          unfold websiteSeriesWrites withApprover
          simp only [List.filter_append]
          rw [show ∀ em : String, ((if em = "" then ([] : List FieldWrite)
              else [FieldWrite.approver em]).filter
              (fun fw => match fw with | FieldWrite.websiteSeriesId _ => true | _ => false)) = []
            from fun em => by split <;> rfl]
          exact congrArg ([] ++ ·) hframe.2.1
        · show callsOfSlot (withApprover _ _) _ = callsOfSlot (withApprover _ _) _
          unfold callsOfSlot
          rw [withApprover_calls, withApprover_calls]
          exact hframe.2.2.1
        · show buildingSeriesWrites (withApprover _ _) = buildingSeriesWrites (withApprover _ _)
          unfold buildingSeriesWrites withApprover
          simp only [List.filter_append]
          rw [show ∀ em : String, ((if em = "" then ([] : List FieldWrite)
              else [FieldWrite.approver em]).filter
              (fun fw => match fw with | FieldWrite.buildingSeriesId _ => true | _ => false)) = []
            from fun em => by split <;> rfl]
          exact congrArg ([] ++ ·) hframe.2.2.2

/-- C3 counterexample: a one-shot record whose building-slot call fails —
the error escapes uncaught, only one call was made, and the website slot is
never attempted (with a succeeding building call the same record makes two
calls). -/
theorem C3_counterexample :
    (onApprovalEdit worldFr1BuildingFails cfgAll eOneApprove).uncaught = some "boom" ∧
    (onApprovalEdit worldFr1BuildingFails cfgAll eOneApprove).calls.length = 1 ∧
    callsOfSlot (onApprovalEdit worldFr1BuildingFails cfgAll eOneApprove) Slot.fr1Website = [] ∧
    websiteEventWrites (onApprovalEdit worldFr1BuildingFails cfgAll eOneApprove) = [] ∧
    (onApprovalEdit worldOk cfgAll eOneApprove).calls.length = 2 := by
  refine ⟨by decide, by decide, by decide, by decide, by decide⟩

theorem C3_slotIndependence_witness :
    callsOfSlot (onApprovalEdit { worldOk with fr2BuildingCreate := Except.error "bang" }
        cfgAll eGameApprove) Slot.fr2Website =
      callsOfSlot (onApprovalEdit worldOk cfgAll eGameApprove) Slot.fr2Website :=
  (C3_slotIndependence worldOk cfgAll eGameApprove rowGame rfl
    (Except.error "bang") (Except.ok none)).2.1

end UUCLV
